import Mathlib

/-!
# Verification of the Charlotte Golf Guide (`src/app.py`)

Shallow embedding of the core logic of `app.py`: the filter/sort query engine
(module-level filter and sort blocks), the Google Places resolvers
(`get_place_id`, `get_place_photos`), the haversine distance
(`calculate_distance`), the course loader (`load_courses`), the TTL lookup
cache (`st.cache_data` decorators, modelled from the spec since the cache
implementation lives in the Streamlit library, not in this repository), and
the API-key gating of the photo gallery and the dev verification tool.

Numbers appearing in the JSON data file (prices, star ratings, coordinates)
are decimal literals and are embedded as rationals; the trigonometric
distance computation is embedded over the exact reals.
-/

open Real

/-- Course record as loaded from `charlotte_courses.json`.  Only the fields
read by the filter/sort/resolver logic are embedded; `latitude`/`longitude`
are optional in the data file (`course.get('latitude')`). -/
structure Course where
  name : String
  address : String
  latitude : Option ℚ
  longitude : Option ℚ
  weekday_price : ℚ
  star_rating : ℚ
  holes : ℕ
  yardage : ℤ
deriving DecidableEq

/-! ## Query engine: filtering (`app.py` lines 208-219) -/

/-- Contiguous-substring containment on character lists, the meaning of
Python's `needle in haystack` for strings. -/
def containsSub (needle : List Char) : List Char → Bool
  | [] => needle.isEmpty
  | c :: rest => needle.isPrefixOf (c :: rest) || containsSub needle rest

/-- Lower-casing of a string at character level, the meaning of Python's
`str.lower()` on the ASCII course names in the data file. -/
def lowerChars (s : String) : List Char := s.data.map Char.toLower

/-- `search.lower() in c["name"].lower()` (line 211). -/
def namePass (search : String) (c : Course) : Bool :=
  containsSub (lowerChars search) (lowerChars c.name)

/-- `price_range[0] <= c["weekday_price"] <= price_range[1]` (line 213). -/
def pricePass (lo hi : ℚ) (c : Course) : Bool :=
  decide (lo ≤ c.weekday_price) && decide (c.weekday_price ≤ hi)

/-- `c["star_rating"] >= min_stars` (line 214). -/
def starsPass (minStars : ℚ) (c : Course) : Bool :=
  decide (minStars ≤ c.star_rating)

/-- The hole-count constraint induced by the radio selection (lines 216-219):
`"9-Hole Only"` keeps 9-hole courses, `"18-Hole Only"` keeps 18-hole courses,
any other selection (i.e. `"All"`) keeps everything. -/
def holePass (holeFilter : String) (c : Course) : Bool :=
  if holeFilter = "9-Hole Only" then c.holes == 9
  else if holeFilter = "18-Hole Only" then c.holes == 18
  else true

/-- The module-level filter block (lines 208-219): start from the loaded
courses; when the search string is non-empty (Python truthiness of `search`)
keep name matches; then always apply the price filter, then the star filter,
then the hole filter according to the radio selection. -/
def applyFilters (courses : List Course) (search : String) (lo hi minStars : ℚ)
    (holeFilter : String) : List Course :=
  let f0 := courses
  let f1 := if search ≠ "" then f0.filter (namePass search) else f0
  let f2 := f1.filter (pricePass lo hi)
  let f3 := f2.filter (starsPass minStars)
  if holeFilter = "9-Hole Only" then f3.filter (fun c => c.holes == 9)
  else if holeFilter = "18-Hole Only" then f3.filter (fun c => c.holes == 18)
  else f3

/-! ## Query engine: sorting (`app.py` lines 222-231)

Python's `list.sort` is a stable sort; with `key=` it orders by the key and
keeps the original relative order of equal keys, and `reverse=True` reverses
the key comparison but not the tie-break order.  A stable sort is uniquely
determined by its ordering relation, so we embed it as a stable insertion
sort parameterised by a boolean "goes before or ties" relation. -/

/-- Insert `x` (originally positioned before every element of the list) in
front of the first element `y` with `le x y`; stability of the insertion
sort rests on inserting before, not after, elements that tie with `x`. -/
def insertLe (le : α → α → Bool) (x : α) : List α → List α
  | [] => [x]
  | y :: ys => if le x y then x :: y :: ys else y :: insertLe le x ys

/-- Stable insertion sort, the embedding of Python's stable `list.sort`. -/
def insertionSortBy (le : α → α → Bool) : List α → List α
  | [] => []
  | x :: xs => insertLe le x (insertionSortBy le xs)

/-- Code-point lexicographic comparison of character lists, the meaning of
Python's `<=` on strings (used through `sort(key=lambda c: c["name"])`). -/
def charListLe : List Char → List Char → Bool
  | [], _ => true
  | _ :: _, [] => false
  | a :: as, b :: bs => if a < b then true else if b < a then false else charListLe as bs

/-- The module-level sort block (lines 222-231): one stable sort by the
single selected key; `reverse=True` flips the key comparison. -/
def applySort (sortOption : String) (l : List Course) : List Course :=
  if sortOption = "Name (A-Z)" then
    insertionSortBy (fun a b => charListLe a.name.data b.name.data) l
  else if sortOption = "Price: Low to High" then
    insertionSortBy (fun a b => decide (a.weekday_price ≤ b.weekday_price)) l
  else if sortOption = "Price: High to Low" then
    insertionSortBy (fun a b => decide (b.weekday_price ≤ a.weekday_price)) l
  else if sortOption = "Rating: High to Low" then
    insertionSortBy (fun a b => decide (b.star_rating ≤ a.star_rating)) l
  else if sortOption = "Yardage: Long to Short" then
    insertionSortBy (fun a b => decide (b.yardage ≤ a.yardage)) l
  else l

/-! ### Supporting lemmas -/

theorem containsSub_nil (l : List Char) : containsSub [] l = true := by
  cases l <;> simp [containsSub, List.isPrefixOf]

theorem namePass_empty (c : Course) : namePass "" c = true := by
  have : lowerChars "" = [] := rfl
  simp [namePass, this, containsSub_nil]

theorem charListLe_refl (l : List Char) : charListLe l l = true := by
  induction l with
  | nil => rfl
  | cons a as ih => simp [charListLe, ih]

theorem insertLe_length (le : α → α → Bool) (x : α) (l : List α) :
    (insertLe le x l).length = l.length + 1 := by
  induction l with
  | nil => rfl
  | cons y ys ih =>
    by_cases h : le x y = true
    · simp [insertLe, h]
    · simp [insertLe, h, ih]

theorem insertionSortBy_length (le : α → α → Bool) (l : List α) :
    (insertionSortBy le l).length = l.length := by
  induction l with
  | nil => rfl
  | cons x xs ih => simp [insertionSortBy, insertLe_length, ih]

theorem filter_insertLe (le : α → α → Bool) (p : α → Bool) (x : α) (l : List α)
    (h : p x = true → ∀ y ∈ l, p y = true → le x y = true) :
    (insertLe le x l).filter p = if p x then x :: l.filter p else l.filter p := by
  induction l with
  | nil =>
    by_cases hx : p x = true <;> simp [insertLe, List.filter, hx]
  | cons y ys ih =>
    by_cases hle : le x y = true
    · by_cases hx : p x = true <;> simp [insertLe, hle, List.filter_cons, hx]
    · by_cases hx : p x = true
      · have hy : p y = false := by
          by_contra hy
          exact hle (h hx y (by simp) (by simpa using hy))
        have ih' := ih (fun _ z hz hpz => h hx z (by simp [hz]) hpz)
        simp [insertLe, hle, List.filter_cons, hx, hy] at ih' ⊢
        exact ih'
      · have ih' := ih (fun hx' => absurd hx' hx)
        by_cases hy : p y = true <;>
          simp [insertLe, hle, List.filter_cons, hx, hy] at ih' ⊢ <;> exact ih'

/-- Stability of the insertion sort: for any predicate `p` such that `le`
accepts every `p`-pair (in particular "has key value `v`" for the sort key
underlying `le`), the `p`-elements come out in their original order. -/
theorem filter_insertionSortBy (le : α → α → Bool) (p : α → Bool) (l : List α)
    (h : ∀ a b, p a = true → p b = true → le a b = true) :
    (insertionSortBy le l).filter p = l.filter p := by
  induction l with
  | nil => rfl
  | cons x xs ih =>
    have step := filter_insertLe le p x (insertionSortBy le xs)
      (fun hx _ _ hpy => h _ _ hx hpy)
    by_cases hx : p x = true <;>
      simp [insertionSortBy, step, hx, List.filter_cons, ih]

/-! ## Claims C1 and C2 -/

theorem mem_applyFilters (courses : List Course) (search : String) (lo hi minStars : ℚ)
    (holeFilter : String) (c : Course) :
    c ∈ applyFilters courses search lo hi minStars holeFilter ↔
      c ∈ courses ∧ namePass search c = true ∧ lo ≤ c.weekday_price ∧
        c.weekday_price ≤ hi ∧ minStars ≤ c.star_rating ∧ holePass holeFilter c = true := by
  unfold applyFilters holePass
  by_cases hs : search = "" <;> split_ifs <;>
    simp_all [List.mem_filter, pricePass, starsPass, namePass_empty] <;> tauto

/-- C1: the filter block is conjunctive — a record is in the result iff it is
in the input and passes the case-insensitive name-substring test, has
weekday price inside the inclusive range, star rating at least the minimum,
and matches the hole-count mode; and when every constraint is absent (empty
search, full price range, minimum 1.0 stars, hole mode `All`) no record is
excluded. -/
theorem C1_filter_sound_complete (courses : List Course) (search : String)
    (lo hi minStars : ℚ) (holeFilter : String) :
    (∀ c : Course,
        c ∈ applyFilters courses search lo hi minStars holeFilter ↔
          c ∈ courses ∧ namePass search c = true ∧ lo ≤ c.weekday_price ∧
            c.weekday_price ≤ hi ∧ minStars ≤ c.star_rating ∧
            holePass holeFilter c = true)
    ∧ (search = "" → minStars = 1 → holeFilter = "All" →
        (∀ c ∈ courses, lo ≤ c.weekday_price ∧ c.weekday_price ≤ hi ∧ 1 ≤ c.star_rating) →
        applyFilters courses search lo hi minStars holeFilter = courses) := by
  constructor
  · exact fun c => mem_applyFilters courses search lo hi minStars holeFilter c
  · intro hs hms hhf hall
    subst hs hms hhf
    have h2 : courses.filter (pricePass lo hi) = courses :=
      List.filter_eq_self.mpr (fun a ha => by
        simp only [pricePass, Bool.and_eq_true, decide_eq_true_eq]
        exact ⟨(hall a ha).1, (hall a ha).2.1⟩)
    have h3 : courses.filter (starsPass 1) = courses :=
      List.filter_eq_self.mpr (fun a ha => by
        simp only [starsPass, decide_eq_true_eq]
        exact (hall a ha).2.2)
    simp [applyFilters, h2, h3]

/-- Sample course from the spec example in §8. -/
def parkRidge : Course :=
  { name := "Park Ridge Golf Club", address := "9 Club Rd", latitude := some 35,
    longitude := some (-80), weekday_price := 45, star_rating := 4, holes := 18,
    yardage := 6800 }

/-- Second sample course from the spec example in §8. -/
def parkview9 : Course :=
  { name := "Parkview 9", address := "2 Oak St", latitude := none,
    longitude := none, weekday_price := 25, star_rating := 7/2, holes := 9,
    yardage := 3100 }

theorem C1_filter_witness :
    applyFilters [parkRidge, parkview9] "" 0 100 1 "All" = [parkRidge, parkview9] :=
  (C1_filter_sound_complete [parkRidge, parkview9] "" 0 100 1 "All").2
    rfl rfl rfl (by
      intro c hc
      simp only [List.mem_cons, List.not_mem_nil, or_false] at hc
      rcases hc with rfl | rfl <;> norm_num [parkRidge, parkview9])

/-- C2: each of the five sort options is stable with respect to the incoming
order — for any value of the chosen key, the records carrying that key value
appear in the sorted result in exactly their original relative order; this
holds for the descending options as well. -/
theorem C2_sort_stable (l : List Course) :
    (∀ v : String,
        (applySort "Name (A-Z)" l).filter (fun c => decide (c.name = v)) =
          l.filter (fun c => decide (c.name = v)))
    ∧ (∀ v : ℚ,
        (applySort "Price: Low to High" l).filter (fun c => decide (c.weekday_price = v)) =
          l.filter (fun c => decide (c.weekday_price = v)))
    ∧ (∀ v : ℚ,
        (applySort "Price: High to Low" l).filter (fun c => decide (c.weekday_price = v)) =
          l.filter (fun c => decide (c.weekday_price = v)))
    ∧ (∀ v : ℚ,
        (applySort "Rating: High to Low" l).filter (fun c => decide (c.star_rating = v)) =
          l.filter (fun c => decide (c.star_rating = v)))
    ∧ (∀ v : ℤ,
        (applySort "Yardage: Long to Short" l).filter (fun c => decide (c.yardage = v)) =
          l.filter (fun c => decide (c.yardage = v))) := by
  refine ⟨?_, ?_, ?_, ?_, ?_⟩ <;> intro v
  · have e : applySort "Name (A-Z)" l =
        insertionSortBy (fun a b => charListLe a.name.data b.name.data) l := by
      simp [applySort]
    rw [e]
    exact filter_insertionSortBy _ _ l (fun a b ha hb => by
      simp only [decide_eq_true_eq] at ha hb
      rw [ha, hb]
      exact charListLe_refl _)
  · have e : applySort "Price: Low to High" l =
        insertionSortBy (fun a b => decide (a.weekday_price ≤ b.weekday_price)) l := by
      simp [applySort]
    rw [e]
    exact filter_insertionSortBy _ _ l (fun a b ha hb => by
      simp only [decide_eq_true_eq] at ha hb ⊢
      rw [ha, hb])
  · have e : applySort "Price: High to Low" l =
        insertionSortBy (fun a b => decide (b.weekday_price ≤ a.weekday_price)) l := by
      simp [applySort]
    rw [e]
    exact filter_insertionSortBy _ _ l (fun a b ha hb => by
      simp only [decide_eq_true_eq] at ha hb ⊢
      rw [ha, hb])
  · have e : applySort "Rating: High to Low" l =
        insertionSortBy (fun a b => decide (b.star_rating ≤ a.star_rating)) l := by
      simp [applySort]
    rw [e]
    exact filter_insertionSortBy _ _ l (fun a b ha hb => by
      simp only [decide_eq_true_eq] at ha hb ⊢
      rw [ha, hb])
  · have e : applySort "Yardage: Long to Short" l =
        insertionSortBy (fun a b => decide (b.yardage ≤ a.yardage)) l := by
      simp [applySort]
    rw [e]
    exact filter_insertionSortBy _ _ l (fun a b ha hb => by
      simp only [decide_eq_true_eq] at ha hb ⊢
      rw [ha, hb])

/-! ## Claim C9: the filter/sort block never mutates the loaded list

The Python block starts with `filtered = courses` (an alias), rebinds
`filtered` to fresh list objects in the comprehension steps, and finally
calls the in-place `filtered.sort(...)`.  To make "the input collection is
never mutated" a real statement we embed the block over a small heap of
list objects: names are indices into the heap, comprehensions allocate,
and `.sort` overwrites the object named by `filtered` in place. -/

/-- Heap of Python list objects for the module-level block: `coursesRef` and
`filteredRef` are the objects currently named by `courses` and `filtered`. -/
structure PyState where
  heap : List (List Course)
  coursesRef : ℕ
  filteredRef : ℕ

/-- Dereference a heap name. -/
def getObj (st : PyState) (i : ℕ) : List Course := (st.heap.get? i).getD []

/-- A list comprehension `filtered = [c for c in filtered if p(c)]`:
allocates a fresh object and rebinds `filtered` to it. -/
def allocFilter (st : PyState) (p : Course → Bool) : PyState :=
  { heap := st.heap ++ [(getObj st st.filteredRef).filter p]
    coursesRef := st.coursesRef
    filteredRef := st.heap.length }

/-- `filtered.sort(...)` (lines 222-231): overwrites the object named by
`filtered` in place with the sorted list. -/
def sortInPlace (st : PyState) (sortOption : String) : PyState :=
  { st with
    heap := st.heap.set st.filteredRef (applySort sortOption (getObj st st.filteredRef)) }

/-- The whole module-level block, lines 208-231: alias, conditional name
filter, unconditional price and star filters, conditional hole filter, then
the in-place sort. -/
def runBlock (cs : List Course) (search : String) (lo hi minStars : ℚ)
    (holeFilter sortOption : String) : PyState :=
  let st0 : PyState := ⟨[cs], 0, 0⟩
  let st1 := if search ≠ "" then allocFilter st0 (namePass search) else st0
  let st2 := allocFilter st1 (pricePass lo hi)
  let st3 := allocFilter st2 (starsPass minStars)
  let st4 :=
    if holeFilter = "9-Hole Only" then allocFilter st3 (fun c => c.holes == 9)
    else if holeFilter = "18-Hole Only" then allocFilter st3 (fun c => c.holes == 18)
    else st3
  sortInPlace st4 sortOption

/-- The Course List tab (lines 240-242): an empty result renders the
"no courses match" notice, a non-empty one renders the listing. -/
inductive Tab1View where
  | noMatches
  | listing (shown : List Course)
deriving DecidableEq

/-- `if not filtered: st.info(...) else: ...` (lines 241-244). -/
def renderTab1 (filtered : List Course) : Tab1View :=
  if filtered.isEmpty then .noMatches else .listing filtered

/-- Whole-pipeline outcome: a failing load (uncaught exception from
`load_courses`) propagates; a successful load renders the filtered, sorted
list. -/
def appOutcome (load : Except Unit (List Course)) (search : String)
    (lo hi minStars : ℚ) (holeFilter sortOption : String) : Except Unit Tab1View :=
  match load with
  | .error e => .error e
  | .ok cs =>
      .ok (renderTab1 (applySort sortOption (applyFilters cs search lo hi minStars holeFilter)))

theorem allocFilter_coursesRef (st : PyState) (p : Course → Bool) :
    (allocFilter st p).coursesRef = st.coursesRef := rfl

theorem allocFilter_heap_length (st : PyState) (p : Course → Bool) :
    (allocFilter st p).heap.length = st.heap.length + 1 := by
  simp [allocFilter]

theorem allocFilter_get?_of_lt (st : PyState) (p : Course → Bool) (i : ℕ)
    (h : i < st.heap.length) : (allocFilter st p).heap.get? i = st.heap.get? i := by
  simp [allocFilter, List.getElem?_append, h]

theorem allocFilter_getObj_new (st : PyState) (p : Course → Bool) :
    getObj (allocFilter st p) (allocFilter st p).filteredRef =
      (getObj st st.filteredRef).filter p := by
  simp [allocFilter, getObj]

theorem sortInPlace_get?_ne (st : PyState) (sortOption : String) (i : ℕ)
    (h : i ≠ st.filteredRef) :
    (sortInPlace st sortOption).heap.get? i = st.heap.get? i := by
  simp [sortInPlace, List.getElem?_set_ne (Ne.symm h)]

theorem sortInPlace_getObj (st : PyState) (sortOption : String)
    (h : st.filteredRef < st.heap.length) :
    getObj (sortInPlace st sortOption) (sortInPlace st sortOption).filteredRef =
      applySort sortOption (getObj st st.filteredRef) := by
  simp [sortInPlace, getObj, List.getElem?_set_self, h]

theorem applySort_length (sortOption : String) (l : List Course) :
    (applySort sortOption l).length = l.length := by
  unfold applySort
  split_ifs <;> simp [insertionSortBy_length]

theorem applyFilters_length_le (courses : List Course) (search : String)
    (lo hi minStars : ℚ) (holeFilter : String) :
    (applyFilters courses search lo hi minStars holeFilter).length ≤ courses.length := by
  unfold applyFilters
  split_ifs <;>
    first
      | exact (List.length_filter_le _ _).trans ((List.length_filter_le _ _).trans
          ((List.length_filter_le _ _).trans (List.length_filter_le _ _)))
      | exact (List.length_filter_le _ _).trans ((List.length_filter_le _ _).trans
          (List.length_filter_le _ _))
      | exact (List.length_filter_le _ _).trans (List.length_filter_le _ _)

/-- C9: running the whole filter/sort block never mutates the loaded course
list — the heap object named `courses` still holds the input, element for
element — while `filtered` names a fresh object holding the filtered, sorted
result; the result is never longer than the input; and an empty result is a
valid rendered outcome (`noMatches`), which a failed data load can never
produce. -/
theorem C9_no_mutation (cs : List Course) (search : String) (lo hi minStars : ℚ)
    (holeFilter sortOption : String) :
    ((runBlock cs search lo hi minStars holeFilter sortOption).coursesRef = 0
      ∧ (runBlock cs search lo hi minStars holeFilter sortOption).heap.get? 0 = some cs)
    ∧ getObj (runBlock cs search lo hi minStars holeFilter sortOption)
        (runBlock cs search lo hi minStars holeFilter sortOption).filteredRef =
      applySort sortOption (applyFilters cs search lo hi minStars holeFilter)
    ∧ (applySort sortOption (applyFilters cs search lo hi minStars holeFilter)).length ≤
        cs.length
    ∧ renderTab1 [] = Tab1View.noMatches
    ∧ ∀ v : Tab1View,
        appOutcome (Except.error ()) search lo hi minStars holeFilter sortOption ≠
          Except.ok v := by
  refine ⟨⟨?_, ?_⟩, ?_, ?_, ?_, ?_⟩
  · by_cases hs : search = "" <;> by_cases h9 : holeFilter = "9-Hole Only" <;>
      by_cases h18 : holeFilter = "18-Hole Only" <;>
      simp [runBlock, allocFilter, sortInPlace, getObj, hs, h9, h18]
  · by_cases hs : search = "" <;> by_cases h9 : holeFilter = "9-Hole Only" <;>
      by_cases h18 : holeFilter = "18-Hole Only" <;>
      simp [runBlock, allocFilter, sortInPlace, getObj, hs, h9, h18]
  · by_cases hs : search = "" <;> by_cases h9 : holeFilter = "9-Hole Only" <;>
      by_cases h18 : holeFilter = "18-Hole Only" <;>
      simp [runBlock, allocFilter, sortInPlace, getObj, applyFilters, hs, h9, h18]
  · rw [applySort_length]
    exact applyFilters_length_le cs search lo hi minStars holeFilter
  · rfl
  · intro v
    simp [appOutcome]

theorem C9_no_mutation_witness :
    (runBlock [parkRidge] "" 0 100 1 "All" "Name (A-Z)").heap.get? 0 = some [parkRidge]
    ∧ appOutcome (Except.error ()) "" 0 100 1 "All" "Name (A-Z)" ≠
        Except.ok Tab1View.noMatches :=
  ⟨(C9_no_mutation [parkRidge] "" 0 100 1 "All" "Name (A-Z)").1.2,
   (C9_no_mutation [parkRidge] "" 0 100 1 "All" "Name (A-Z)").2.2.2.2 Tab1View.noMatches⟩

/-! ## Place and photo resolvers (`app.py` lines 26-106)

The haversine distance is embedded over the exact reals.  The external HTTP
call is embedded as an explicit argument: `Except.error ()` stands for any
transport failure, raised exception, or malformed response (Python's
`except` block catches them all), and a parsed response carries the provider
status and the candidate list. -/

/-- `math.radians` (degrees to radians). -/
noncomputable def radians (x : ℝ) : ℝ := x * Real.pi / 180

/-- `math.atan2` over the reals (the two-argument arctangent). -/
noncomputable def atan2 (y x : ℝ) : ℝ :=
  if 0 < x then Real.arctan (y / x)
  else if x < 0 then
    (if 0 ≤ y then Real.arctan (y / x) + Real.pi else Real.arctan (y / x) - Real.pi)
  else if 0 < y then Real.pi / 2
  else if y < 0 then -(Real.pi / 2)
  else 0

/-- `calculate_distance` (lines 26-36): haversine distance in miles with
Earth radius 3959. -/
noncomputable def calculate_distance (lat1 lon1 lat2 lon2 : ℝ) : ℝ :=
  let R : ℝ := 3959
  let lat1r := radians lat1
  let lon1r := radians lon1
  let lat2r := radians lat2
  let lon2r := radians lon2
  let dlat := lat2r - lat1r
  let dlon := lon2r - lon1r
  let a := Real.sin (dlat / 2) ^ 2 +
    Real.cos lat1r * Real.cos lat2r * Real.sin (dlon / 2) ^ 2
  let c := 2 * atan2 (Real.sqrt a) (Real.sqrt (1 - a))
  R * c

/-- One entry of the text-search `results` array: its `place_id` and the
`geometry.location` coordinate (decimal degrees, embedded as rationals). -/
structure Candidate where
  place_id : String
  lat : ℚ
  lng : ℚ

/-- Parsed text-search response: provider `status` and ranked `results`;
a missing or non-list `results` key behaves like an empty list under
`data.get('results')` truthiness. -/
structure PlacesResponse where
  status : String
  results : List Candidate

/-- Python truthiness of an optional numeric parameter, the meaning of
`if latitude and longitude:` — `None` and `0` are both falsy. -/
def truthyCoord : Option ℚ → Bool
  | none => false
  | some x => decide (x ≠ 0)

/-- The location bias attached to the text-search request (lines 53-56):
present exactly when `latitude and longitude` is truthy. -/
def locationBias (latitude longitude : Option ℚ) : Option (ℚ × ℚ) :=
  if truthyCoord latitude && truthyCoord longitude then
    some (latitude.getD 0, longitude.getD 0)
  else none

/-- The text-search request built by `get_place_id` (lines 43-56): query
string, API key, optional location bias and radius. -/
structure PlaceRequest where
  query : String
  key : Option String
  location : Option (ℚ × ℚ)
  radius : Option ℕ
deriving DecidableEq

/-- Request construction in `get_place_id`: `f"{course_name} golf course
{address}"`, the module-level API key, and the conditional bias. -/
def placeRequest (key : Option String) (course_name address : String)
    (latitude longitude : Option ℚ) : PlaceRequest :=
  { query := course_name ++ " golf course " ++ address
    key := key
    location := locationBias latitude longitude
    radius := if truthyCoord latitude && truthyCoord longitude then some 5000 else none }

/-- `get_place_id` (lines 39-83): on any exception `None`; on a parsed
response, require status `OK` and a non-empty candidate list, take the first
candidate, and when `latitude and longitude` is truthy reject it if the
haversine distance exceeds 2.0 miles. -/
noncomputable def get_place_id (course_name address : String)
    (latitude longitude : Option ℚ) (response : Except Unit PlacesResponse) :
    Option String :=
  match response with
  | .error _ => none
  | .ok data =>
      if data.status = "OK" then
        match data.results with
        | [] => none
        | place :: _ =>
            if truthyCoord latitude && truthyCoord longitude then
              if 2 < calculate_distance ((latitude.getD 0 : ℚ) : ℝ)
                  ((longitude.getD 0 : ℚ) : ℝ) ((place.lat : ℚ) : ℝ)
                  ((place.lng : ℚ) : ℝ) then
                none
              else some place.place_id
            else some place.place_id
      else none

/-- One entry of the `photos` array of a place-details response. -/
structure PhotoRef where
  photo_reference : String
deriving DecidableEq

/-- Parsed place-details response: provider `status`, an optional `result`
object, and inside it an optional `photos` list (`.get('photos', [])`). -/
structure DetailsResponse where
  status : String
  result : Option (Option (List PhotoRef))

/-- `get_place_photos` (lines 86-106): on any exception `[]`; otherwise
require status `OK` and a present `result` field, read `photos` with default
`[]`, and truncate to `max_photos`. -/
def get_place_photos (place_id : String) (max_photos : ℕ)
    (response : Except Unit DetailsResponse) : List PhotoRef :=
  match response with
  | .error _ => []
  | .ok data =>
      if data.status = "OK" then
        match data.result with
        | none => []
        | some photosField => (photosField.getD []).take max_photos
      else []

/-! ### Distance lemmas -/

theorem atan2_nonneg (y x : ℝ) (hy : 0 ≤ y) (hx : 0 ≤ x) : 0 ≤ atan2 y x := by
  unfold atan2
  split_ifs
  all_goals first
    | (have h := Real.arctan_strictMono.monotone (div_nonneg hy hx)
       rw [Real.arctan_zero] at h
       exact h)
    | linarith [Real.pi_pos]

theorem atan2_zero_one : atan2 0 1 = 0 := by
  unfold atan2
  rw [if_pos one_pos]
  simp [Real.arctan_zero]

theorem atan2_one_zero : atan2 1 0 = Real.pi / 2 := by
  unfold atan2
  rw [if_neg (lt_irrefl 0), if_neg (lt_irrefl 0), if_pos one_pos]

theorem atan2_self_pos (x : ℝ) (hx : 0 < x) : atan2 x x = Real.pi / 4 := by
  unfold atan2
  rw [if_pos hx, div_self hx.ne', Real.arctan_one]

/-- Distance from (0°,0°) to (0°,180°): half the equator, `3959·π` miles. -/
theorem dist_equator : calculate_distance 0 0 0 180 = 3959 * Real.pi := by
  unfold calculate_distance radians
  norm_num
  rw [atan2_one_zero]
  ring

/-- Distance from (0°,0°) to (90°,0°): a quarter meridian, `3959·π/2` miles. -/
theorem dist_pole : calculate_distance 0 0 90 0 = 3959 * (Real.pi / 2) := by
  unfold calculate_distance radians
  norm_num
  rw [show (90 : ℝ) * Real.pi / 180 / 2 = Real.pi / 4 by ring, Real.sin_pi_div_four]
  have h2 : ((Real.sqrt 2) / 2) ^ 2 = (1 : ℝ) / 2 := by
    rw [div_pow, Real.sq_sqrt (by norm_num : (0:ℝ) ≤ 2)]
    norm_num
  rw [h2]
  rw [show (1 : ℝ) - 1/2 = 1/2 by norm_num]
  rw [atan2_self_pos _ (Real.sqrt_pos.mpr (by norm_num))]
  ring

/-- C10: over exact real arithmetic the haversine distance of
`calculate_distance` is symmetric in its two coordinate pairs, non-negative
for all inputs, and zero when both points coincide. -/
theorem C10_distance_metric_properties (lat1 lon1 lat2 lon2 : ℝ) :
    calculate_distance lat1 lon1 lat2 lon2 = calculate_distance lat2 lon2 lat1 lon1
    ∧ 0 ≤ calculate_distance lat1 lon1 lat2 lon2
    ∧ calculate_distance lat1 lon1 lat1 lon1 = 0 := by
  refine ⟨?_, ?_, ?_⟩
  · simp only [calculate_distance]
    have ha : Real.sin ((radians lat1 - radians lat2) / 2) ^ 2 +
        Real.cos (radians lat2) * Real.cos (radians lat1) *
          Real.sin ((radians lon1 - radians lon2) / 2) ^ 2 =
        Real.sin ((radians lat2 - radians lat1) / 2) ^ 2 +
        Real.cos (radians lat1) * Real.cos (radians lat2) *
          Real.sin ((radians lon2 - radians lon1) / 2) ^ 2 := by
      rw [show (radians lat1 - radians lat2) / 2 = -((radians lat2 - radians lat1) / 2) by
            ring,
          show (radians lon1 - radians lon2) / 2 = -((radians lon2 - radians lon1) / 2) by
            ring,
          Real.sin_neg, Real.sin_neg]
      ring
    rw [ha]
  · simp only [calculate_distance]
    have h := atan2_nonneg
      (Real.sqrt (Real.sin ((radians lat2 - radians lat1) / 2) ^ 2 +
        Real.cos (radians lat1) * Real.cos (radians lat2) *
          Real.sin ((radians lon2 - radians lon1) / 2) ^ 2))
      (Real.sqrt (1 - (Real.sin ((radians lat2 - radians lat1) / 2) ^ 2 +
        Real.cos (radians lat1) * Real.cos (radians lat2) *
          Real.sin ((radians lon2 - radians lon1) / 2) ^ 2)))
      (Real.sqrt_nonneg _) (Real.sqrt_nonneg _)
    linarith
  · simp only [calculate_distance, sub_self, zero_div, Real.sin_zero, ne_eq,
      OfNat.ofNat_ne_zero, not_false_eq_true, zero_pow, mul_zero, add_zero, zero_add,
      Real.sqrt_zero, sub_zero, Real.sqrt_one]
    rw [atan2_zero_one]
    ring

/-! ## Claims C3 and C4: the coordinate guard

`app.py` line 54 and line 67 guard both the location bias and the distance
verification with `if latitude and longitude:`, which is Python *truthiness*:
a coordinate equal to `0` (or `0.0`) is treated exactly like an absent one.
So "latitude and longitude supplied" does not by itself trigger the distance
check — the counterexamples below supply `0` coordinates together with a
first candidate thousands of miles away and the resolver still accepts it. -/

/-- C3 counterexample: coordinates are supplied (`lat=0`, `lon=0`) and the
first candidate sits half an equator away (`3959·π > 2` miles), yet the
resolver returns the candidate instead of `NotFound`. -/
theorem C3_counterexample :
    get_place_id "Test Course" "1 Main St" (some 0) (some 0)
        (.ok { status := "OK", results := [{ place_id := "pid0", lat := 0, lng := 180 }] }) =
      some "pid0"
    ∧ 2 < calculate_distance ((0 : ℚ) : ℝ) ((0 : ℚ) : ℝ) ((0 : ℚ) : ℝ) ((180 : ℚ) : ℝ) := by
  constructor
  · norm_num [get_place_id, truthyCoord]
  · push_cast
    rw [dist_equator]
    nlinarith [Real.pi_gt_three]

/-- C3 (amended): for nonzero supplied coordinates (the code's truthiness
guard), a first candidate strictly farther than 2.0 miles is rejected as
`NotFound`, and a candidate at distance at most 2.0 miles — the boundary
value 2.0 included — is accepted; the boundary is exclusive rejection. -/
theorem C3_distance_boundary (course_name address : String) (la lo : ℚ)
    (p : Candidate) (rest : List Candidate) (hla : la ≠ 0) (hlo : lo ≠ 0) :
    (2 < calculate_distance ((la : ℚ) : ℝ) ((lo : ℚ) : ℝ) ((p.lat : ℚ) : ℝ)
        ((p.lng : ℚ) : ℝ) →
      get_place_id course_name address (some la) (some lo)
        (.ok { status := "OK", results := p :: rest }) = none)
    ∧ (calculate_distance ((la : ℚ) : ℝ) ((lo : ℚ) : ℝ) ((p.lat : ℚ) : ℝ)
        ((p.lng : ℚ) : ℝ) ≤ 2 →
      get_place_id course_name address (some la) (some lo)
        (.ok { status := "OK", results := p :: rest }) = some p.place_id) := by
  constructor <;> intro h <;>
    simp [get_place_id, truthyCoord, hla, hlo, h, not_lt.mpr]

theorem C3_distance_boundary_witness :
    (2 < calculate_distance ((35 : ℚ) : ℝ) ((-80 : ℚ) : ℝ) ((35 : ℚ) : ℝ)
        ((-80 : ℚ) : ℝ) →
      get_place_id "Test Course" "1 Main St" (some 35) (some (-80))
        (.ok { status := "OK",
               results := [{ place_id := "pid", lat := 35, lng := -80 }] }) = none)
    ∧ (calculate_distance ((35 : ℚ) : ℝ) ((-80 : ℚ) : ℝ) ((35 : ℚ) : ℝ)
        ((-80 : ℚ) : ℝ) ≤ 2 →
      get_place_id "Test Course" "1 Main St" (some 35) (some (-80))
        (.ok { status := "OK",
               results := [{ place_id := "pid", lat := 35, lng := -80 }] }) = some "pid") :=
  C3_distance_boundary "Test Course" "1 Main St" 35 (-80)
    { place_id := "pid", lat := 35, lng := -80 } [] (by norm_num) (by norm_num)

/-- C4 counterexample: latitude and longitude are both supplied with value
`0`; no location bias is attached to the request and no distance check is
performed — the first candidate, a quarter meridian away (`3959·π/2 > 2`
miles), is accepted unconditionally. -/
theorem C4_counterexample :
    locationBias (some 0) (some 0) = none
    ∧ get_place_id "North Course" "2 Polar Way" (some 0) (some 0)
        (.ok { status := "OK", results := [{ place_id := "pid9", lat := 90, lng := 0 }] }) =
      some "pid9"
    ∧ 2 < calculate_distance ((0 : ℚ) : ℝ) ((0 : ℚ) : ℝ) ((90 : ℚ) : ℝ) ((0 : ℚ) : ℝ) := by
  refine ⟨?_, ?_, ?_⟩
  · norm_num [locationBias, truthyCoord]
  · norm_num [get_place_id, truthyCoord]
  · push_cast
    rw [dist_pole]
    nlinarith [Real.pi_gt_three]

/-- C4 (amended): the location bias and the distance check are triggered
exactly when `latitude and longitude` is *truthy* — both supplied and both
nonzero.  When the pair is truthy the request carries the bias and 5 km
radius and a far first candidate is rejected; when it is falsy (absent or
zero coordinates) no bias is attached and the first candidate is accepted
unconditionally, with no distance check. -/
theorem C4_truthy_guard (key : Option String) (course_name address : String)
    (latitude longitude : Option ℚ) (p : Candidate) (rest : List Candidate) :
    ((truthyCoord latitude && truthyCoord longitude) = true →
      (placeRequest key course_name address latitude longitude).location =
          some (latitude.getD 0, longitude.getD 0)
      ∧ (placeRequest key course_name address latitude longitude).radius = some 5000
      ∧ (2 < calculate_distance ((latitude.getD 0 : ℚ) : ℝ) ((longitude.getD 0 : ℚ) : ℝ)
            ((p.lat : ℚ) : ℝ) ((p.lng : ℚ) : ℝ) →
          get_place_id course_name address latitude longitude
            (.ok { status := "OK", results := p :: rest }) = none))
    ∧ ((truthyCoord latitude && truthyCoord longitude) = false →
      (placeRequest key course_name address latitude longitude).location = none
      ∧ (placeRequest key course_name address latitude longitude).radius = none
      ∧ get_place_id course_name address latitude longitude
          (.ok { status := "OK", results := p :: rest }) = some p.place_id) := by
  constructor <;> intro h
  · refine ⟨?_, ?_, ?_⟩
    · simp [placeRequest, locationBias, h]
    · simp [placeRequest, h]
    · intro hd
      simp [get_place_id, h, hd]
  · refine ⟨?_, ?_, ?_⟩
    · simp [placeRequest, locationBias, h]
    · simp [placeRequest, h]
    · simp [get_place_id, h]

theorem C4_truthy_guard_witness :
    ((placeRequest none "Test Course" "1 Main St" (some 35) (some (-80))).location =
        some (35, -80)
      ∧ (placeRequest none "Test Course" "1 Main St" (some 35) (some (-80))).radius =
        some 5000)
    ∧ ((placeRequest none "Test Course" "1 Main St" (some 0) (some (-80))).location = none
      ∧ get_place_id "Test Course" "1 Main St" (some 0) (some (-80))
          (.ok { status := "OK", results := [{ place_id := "w", lat := 1, lng := 1 }] }) =
        some "w") := by
  have h1 := (C4_truthy_guard none "Test Course" "1 Main St" (some 35) (some (-80))
    { place_id := "w", lat := 1, lng := 1 } []).1 (by norm_num [truthyCoord])
  have h2 := (C4_truthy_guard none "Test Course" "1 Main St" (some 0) (some (-80))
    { place_id := "w", lat := 1, lng := 1 } []).2 (by norm_num [truthyCoord])
  exact ⟨⟨by simpa using h1.1, h1.2.1⟩, ⟨h2.1, h2.2.2⟩⟩

/-- C5: every failure mode of the external provider is absorbed at the
resolver boundary — a raised exception / transport failure / malformed
response (the `Except.error` case, caught by the Python `except` block), a
non-`OK` provider status, an empty candidate list, or a missing `result`
field all yield `None` from the place resolver and `[]` from the photo
resolver; both embedded resolvers are total functions, so no exception ever
propagates to the caller. -/
theorem C5_failures_absorbed :
    (∀ (course_name address : String) (latitude longitude : Option ℚ),
        get_place_id course_name address latitude longitude (.error ()) = none)
    ∧ (∀ (course_name address : String) (latitude longitude : Option ℚ)
        (data : PlacesResponse), data.status ≠ "OK" →
          get_place_id course_name address latitude longitude (.ok data) = none)
    ∧ (∀ (course_name address : String) (latitude longitude : Option ℚ)
        (status : String),
          get_place_id course_name address latitude longitude
            (.ok { status := status, results := [] }) = none)
    ∧ (∀ (place_id : String) (max_photos : ℕ),
        get_place_photos place_id max_photos (.error ()) = [])
    ∧ (∀ (place_id : String) (max_photos : ℕ) (data : DetailsResponse),
        data.status ≠ "OK" → get_place_photos place_id max_photos (.ok data) = [])
    ∧ (∀ (place_id : String) (max_photos : ℕ) (status : String),
        get_place_photos place_id max_photos (.ok { status := status, result := none }) =
          []) := by
  refine ⟨?_, ?_, ?_, ?_, ?_, ?_⟩
  · intro course_name address latitude longitude
    rfl
  · intro course_name address latitude longitude data h
    simp [get_place_id, h]
  · intro course_name address latitude longitude status
    simp [get_place_id]
  · intro place_id max_photos
    rfl
  · intro place_id max_photos data h
    simp [get_place_photos, h]
  · intro place_id max_photos status
    simp [get_place_photos]

theorem C5_failures_absorbed_witness :
    get_place_id "Test Course" "1 Main St" none none (.error ()) = none
    ∧ get_place_id "Test Course" "1 Main St" none none
        (.ok { status := "REQUEST_DENIED", results := [] }) = none
    ∧ get_place_photos "pid" 5 (.error ()) = []
    ∧ get_place_photos "pid" 5 (.ok { status := "NOT_FOUND", result := none }) = [] :=
  ⟨C5_failures_absorbed.1 "Test Course" "1 Main St" none none,
   C5_failures_absorbed.2.1 "Test Course" "1 Main St" none none
     { status := "REQUEST_DENIED", results := [] } (by decide),
   C5_failures_absorbed.2.2.2.1 "pid" 5,
   C5_failures_absorbed.2.2.2.2.1 "pid" 5 { status := "NOT_FOUND", result := none }
     (by decide)⟩

/-! ## Claim C6: `load_courses` (`app.py` lines 113-119)

`load_courses` opens the JSON file and returns `json.load(f)` unchanged: a
missing or unreadable file and unparseable JSON raise (and propagate), but
no per-record validation of the parsed value is performed. -/

/-- JSON values, the codomain of `json.load`. -/
inductive Json where
  | null
  | bool (b : Bool)
  | num (q : ℚ)
  | str (s : String)
  | arr (xs : List Json)
  | obj (fields : List (String × Json))

/-- `load_courses` (lines 114-117): the outer `Except` is the outcome of
`open` (missing/unreadable file), the inner one the outcome of `json.load`
(unparseable content).  A successfully parsed value is returned as-is. -/
def load_courses (source : Except Unit (Except Unit Json)) : Except Unit Json :=
  match source with
  | .error _ => .error ()
  | .ok parsed =>
      match parsed with
      | .error _ => .error ()
      | .ok j => .ok j

/-- Modelled from the spec: the required `CourseRecord` fields of §3, which
§4.1 says a structurally valid dataset must carry on every record.  This
validation is absent from `src/app.py`; it is stated here only to compare
the spec's contract with what `load_courses` actually does. -/
def requiredFields : List String :=
  ["name", "address", "phone", "description", "designer", "course_type",
   "year_opened", "holes", "par", "yardage", "slope", "rating",
   "weekday_price", "weekend_price", "star_rating", "driving_range"]

/-- Modelled from the spec: a record carries every required field. -/
def recordHasRequired (j : Json) : Bool :=
  match j with
  | .obj fields => requiredFields.all (fun k => fields.any (fun f => f.1 == k))
  | _ => false

/-- Modelled from the spec: the dataset is an array of complete records. -/
def structurallyValid (j : Json) : Bool :=
  match j with
  | .arr records => records.all recordHasRequired
  | _ => false

/-- A parseable dataset whose single record carries only a `name` field —
structurally invalid in the spec's sense. -/
def missingFieldDataset : Json :=
  Json.arr [Json.obj [("name", Json.str "Ghost Course")]]

/-- C6 counterexample: `load_courses` returns the structurally invalid
dataset as-is instead of failing — the loader performs no required-field
validation. -/
theorem C6_counterexample :
    load_courses (.ok (.ok missingFieldDataset)) = .ok missingFieldDataset
    ∧ structurallyValid missingFieldDataset = false := by
  constructor
  · rfl
  · decide

/-- C6 (amended): the loader fails exactly when the backing file is missing
or unreadable or its content is not valid JSON; any successfully parsed
value — including one missing required record fields — is returned
unchanged, with no structural validation. -/
theorem C6_load_behavior :
    load_courses (.error ()) = .error ()
    ∧ load_courses (.ok (.error ())) = .error ()
    ∧ ∀ j : Json, load_courses (.ok (.ok j)) = .ok j := by
  exact ⟨rfl, rfl, fun j => rfl⟩

/-! ## Claim C7: the lookup cache

The `@st.cache_data(ttl=...)` decorators (lines 38, 85, 113, 122) delegate
to the Streamlit library, whose implementation is not part of this
repository; the cache semantics is therefore modelled from the spec. -/

/-- Modelled from the spec (§4.5): cache lookup keyed by the full input
tuple; an entry older than the time-to-live is stale and ignored (lazy
eviction, checked on read). -/
def cacheLookup {K V : Type} [DecidableEq K] (ttl now : ℚ)
    (entries : List (K × V × ℚ)) (k : K) : Option V :=
  match entries.find? (fun e => decide (e.1 = k)) with
  | none => none
  | some e => if now - e.2.2 < ttl then some e.2.1 else none

/-- Modelled from the spec (§4.5): a memoized call — on a fresh hit return
the cached value with zero underlying calls; on a miss (or expiry) invoke
the underlying function once and record the result.  Returns the value, the
new cache state, and the number of underlying external calls made. -/
def cachedCall {K V : Type} [DecidableEq K] (f : K → V) (ttl : ℚ)
    (entries : List (K × V × ℚ)) (now : ℚ) (k : K) : V × List (K × V × ℚ) × ℕ :=
  match cacheLookup ttl now entries k with
  | some v => (v, entries, 0)
  | none => (f k, (k, f k, now) :: entries, 1)

/-- `ttl=3600` on `get_place_id` (line 38). -/
def get_place_id_ttl : ℚ := 3600

/-- `ttl=3600` on `get_place_photos` (line 85). -/
def get_place_photos_ttl : ℚ := 3600

/-- `ttl=60` on `load_courses` (line 113). -/
def load_courses_ttl : ℚ := 60

/-- C7: two cached calls on the same key within one TTL window trigger
exactly one underlying external call — the first computes, the second is
served from the cache with the same value — while a second call made after
the TTL has elapsed is a fresh miss that recomputes; the configured TTLs
are 1 hour for place and photo lookups and 60 seconds for the course
dataset. -/
theorem C7_cache_ttl {K V : Type} [DecidableEq K] (f : K → V) (ttl : ℚ) (k : K)
    (t1 t2 : ℚ) :
    (cachedCall f ttl [] t1 k).2.2 = 1
    ∧ (cachedCall f ttl [] t1 k).1 = f k
    ∧ (t2 - t1 < ttl →
        (cachedCall f ttl (cachedCall f ttl [] t1 k).2.1 t2 k).2.2 = 0
        ∧ (cachedCall f ttl (cachedCall f ttl [] t1 k).2.1 t2 k).1 = f k)
    ∧ (ttl ≤ t2 - t1 →
        (cachedCall f ttl (cachedCall f ttl [] t1 k).2.1 t2 k).2.2 = 1)
    ∧ get_place_id_ttl = 3600 ∧ get_place_photos_ttl = 3600 ∧ load_courses_ttl = 60 := by
  have hfirst : cachedCall f ttl [] t1 k = (f k, [(k, f k, t1)], 1) := rfl
  refine ⟨by rw [hfirst], by rw [hfirst], ?_, ?_, rfl, rfl, rfl⟩
  · intro h
    rw [hfirst]
    have hl : cacheLookup ttl t2 [(k, f k, t1)] k = some (f k) := by
      unfold cacheLookup
      rw [List.find?_cons_of_pos _ (by simp)]
      simp [h]
    constructor <;> simp [cachedCall, hl]
  · intro h
    rw [hfirst]
    have hl : cacheLookup ttl t2 [(k, f k, t1)] k = none := by
      unfold cacheLookup
      rw [List.find?_cons_of_pos _ (by simp)]
      simp [not_lt.mpr h]
    simp [cachedCall, hl]

theorem C7_cache_ttl_witness :
    (cachedCall (fun _ : String => 7) get_place_id_ttl [] 0 "k").2.2 = 1
    ∧ ((cachedCall (fun _ : String => 7) get_place_id_ttl
          (cachedCall (fun _ : String => 7) get_place_id_ttl [] 0 "k").2.1 10 "k").2.2 = 0
      ∧ (cachedCall (fun _ : String => 7) get_place_id_ttl
          (cachedCall (fun _ : String => 7) get_place_id_ttl [] 0 "k").2.1 10 "k").1 = 7)
    ∧ (cachedCall (fun _ : String => 7) get_place_id_ttl
        (cachedCall (fun _ : String => 7) get_place_id_ttl [] 0 "k").2.1 5000 "k").2.2 =
      1 :=
  ⟨(C7_cache_ttl (fun _ : String => 7) get_place_id_ttl "k" 0 10).1,
   (C7_cache_ttl (fun _ : String => 7) get_place_id_ttl "k" 0 10).2.2.1
     (by norm_num [get_place_id_ttl]),
   (C7_cache_ttl (fun _ : String => 7) get_place_id_ttl "k" 0 5000).2.2.2.1
     (by norm_num [get_place_id_ttl])⟩

/-! ## Claim C8: API-key gating

`GOOGLE_API_KEY = os.getenv('GOOGLE_MAPS_API_KEY')` (line 16) may be `None`;
the Photo Gallery tab is gated on it (`if not GOOGLE_API_KEY:` lines
339-340) but the dev-tools verification path (lines 123-141, reachable from
the sidebar) calls `get_place_id` for every course without any key check. -/

/-- The Photo Gallery tab outcome (lines 339-341). -/
inductive GalleryGate where
  | apiKeyError
  | gallery
deriving DecidableEq

/-- Python truthiness of the optional API key: `None` (unset variable) and
the empty string are falsy. -/
def truthyStr : Option String → Bool
  | none => false
  | some s => !(s == "")

/-- `if not GOOGLE_API_KEY: st.error(...)` (lines 339-340). -/
def photoGalleryTab (googleApiKey : Option String) : GalleryGate :=
  if truthyStr googleApiKey then .gallery else .apiKeyError

/-- The text-search requests issued by `verify_all_courses_photos` (lines
123-141): one `get_place_id` call per course, issued unconditionally — the
dev verification path performs no API-key check. -/
def verifyPlaceRequests (googleApiKey : Option String) (courses : List Course) :
    List PlaceRequest :=
  courses.map (fun c => placeRequest googleApiKey c.name c.address c.latitude c.longitude)

/-- C8 counterexample: with no API key configured, the dev verification
path still issues a place lookup (carrying `key = None`) for the course —
contradicting "no place or photo lookup is attempted without a key". -/
theorem C8_counterexample :
    verifyPlaceRequests none [parkRidge] =
      [{ query := "Park Ridge Golf Club golf course 9 Club Rd", key := none,
         location := some (35, -80), radius := some 5000 }] := by
  norm_num [verifyPlaceRequests, placeRequest, locationBias, truthyCoord, parkRidge]
  rfl

/-- C8 (amended): with a falsy API key (unset or empty) the Photo Gallery
tab is surfaced as a disabled-feature error state and issues no lookups,
but the dev verification path still issues one place lookup per course with
that same absent key. -/
theorem C8_key_gating (googleApiKey : Option String) (courses : List Course)
    (h : truthyStr googleApiKey = false) :
    photoGalleryTab googleApiKey = GalleryGate.apiKeyError
    ∧ (verifyPlaceRequests googleApiKey courses).length = courses.length
    ∧ ∀ r ∈ verifyPlaceRequests googleApiKey courses, r.key = googleApiKey := by
  refine ⟨?_, ?_, ?_⟩
  · simp [photoGalleryTab, h]
  · simp [verifyPlaceRequests]
  · intro r hr
    simp only [verifyPlaceRequests, List.mem_map] at hr
    obtain ⟨c, hc, rfl⟩ := hr
    rfl

theorem C8_key_gating_witness :
    photoGalleryTab none = GalleryGate.apiKeyError
    ∧ (verifyPlaceRequests none [parkRidge, parkview9]).length = 2 := by
  have h := C8_key_gating none [parkRidge, parkview9] rfl
  exact ⟨h.1, by simpa using h.2.1⟩
